import Mathlib

/-!
Verification development for the tethys-data-models repository: a shallow
embedding of its pydantic record models (dataset.py, geometry.py, permit.py,
base.py), its object-storage key template registry (utils.py), and the
hash-based identity scheme described in its module docstrings, together with
theorems settling the specified behavioural claims.

Conventions of the embedding:
* Python `datetime` values are modelled as whole seconds since the Unix epoch
  plus a microsecond component (`DateTime`).
* Python `date` values are modelled as an integer day count.
* JSON numeric values (`float` fields) are modelled as rationals, which
  represent decimal JSON literals exactly.
* A pydantic model class is a Lean structure; pydantic's construction-time
  validation is a `mk...` function returning `Option` (`none` = ValidationError).
  Fields declared with a `None` default are `Option` fields; pydantic v1 makes
  such fields optional and nullable, and only validates supplied values.
-/

set_option maxRecDepth 4000

namespace Tethys

/-- A timestamp: whole seconds since the Unix epoch together with a sub-second
microsecond component, mirroring Python `datetime` values handled by the
pydantic models. -/
structure DateTime where
  sec : Int
  micro : Nat
deriving DecidableEq, Repr

/-- Chronological order on timestamps (seconds, then microseconds). -/
def dtLe (a b : DateTime) : Prop :=
  a.sec < b.sec ∨ (a.sec = b.sec ∧ a.micro ≤ b.micro)

instance (a b : DateTime) : Decidable (dtLe a b) := by
  unfold dtLe; infer_instance

/-- dataset.py `TimeRange`: two `datetime` fields and no validator of any
kind (the class body declares only the two typed fields). -/
structure TimeRange where
  from_date : DateTime
  to_date : DateTime
deriving DecidableEq, Repr

/-- Construction of a `TimeRange`.  The source model declares no validator
and no field constraints, so every pair of datetimes is accepted. -/
def mkTimeRange (from_date to_date : DateTime) : Option TimeRange :=
  some ⟨from_date, to_date⟩

/-- dataset.py `ChunkParams`: `block_length: confloat(gt=0) = Field(None, ...)`
and `time_interval: conint(gt=0) = Field(None, ...)`. -/
structure ChunkParams where
  block_length : Option ℚ
  time_interval : Option Int
deriving DecidableEq, Repr

/-- The `confloat(gt=0)` constraint on a supplied `block_length`; an omitted
value (None) is accepted because the field defaults to None. -/
def blockLengthOk (o : Option ℚ) : Bool :=
  match o with
  | none => true
  | some b => decide (0 < b)

/-- The `conint(gt=0)` constraint on a supplied `time_interval`. -/
def timeIntervalOk (o : Option Int) : Bool :=
  match o with
  | none => true
  | some t => decide (0 < t)

/-- Construction of `ChunkParams` under pydantic validation. -/
def mkChunkParams (block_length : Option ℚ) (time_interval : Option Int) :
    Option ChunkParams :=
  if blockLengthOk block_length && timeIntervalOk time_interval then
    some ⟨block_length, time_interval⟩
  else
    none

/-- The `conint(ge=-106751, le=106751)` constraint on a supplied `chunk_day`
(shared by `ResultChunk` and `ChunkID`). -/
def chunkDayOk (o : Option Int) : Bool :=
  match o with
  | none => true
  | some d => decide (-106751 ≤ d) && decide (d ≤ 106751)

/-- The `conint(ge=0)` constraint on a supplied `band`. -/
def bandOk (o : Option Int) : Bool :=
  match o with
  | none => true
  | some b => decide (0 ≤ b)

/-- dataset.py `ChunkID`: the hashing dict used to create the chunk id; all
three fields default to None. -/
structure ChunkID where
  height : Option Int
  chunk_day : Option Int
  band : Option Int
deriving DecidableEq, Repr

/-- Construction of `ChunkID` under pydantic validation: `height` is an
unconstrained int, `chunk_day` is range checked, `band` must be ≥ 0. -/
def mkChunkID (height chunk_day band : Option Int) : Option ChunkID :=
  if chunkDayOk chunk_day && bandOk band then
    some ⟨height, chunk_day, band⟩
  else
    none

/-- dataset.py `ResultChunk`: metadata about one stored chunk object.
Required fields use `Field(...)`; `height`, `chunk_day` and `band` default
to None. -/
structure ResultChunk where
  chunk_id : String
  key : String
  content_length : Int
  version_date : DateTime
  chunk_hash : String
  dataset_id : String
  station_id : String
  height : Option Int
  chunk_day : Option Int
  band : Option Int
deriving DecidableEq, Repr

/-- Construction of `ResultChunk` under pydantic validation:
`content_length: conint(gt=0)`, `chunk_day: conint(ge=-106751, le=106751)`,
`band: conint(ge=0)`; no other field carries a constraint and the model has
no cross-field validator. -/
def mkResultChunk (chunk_id key : String) (content_length : Int)
    (version_date : DateTime) (chunk_hash dataset_id station_id : String)
    (height chunk_day band : Option Int) : Option ResultChunk :=
  if decide (0 < content_length) && chunkDayOk chunk_day && bandOk band then
    some ⟨chunk_id, key, content_length, version_date, chunk_hash,
          dataset_id, station_id, height, chunk_day, band⟩
  else
    none

/-- geometry.py `lat_lon`: a coordinate tuple, `conlist` with `min_items=2`
and `max_items=3` (numeric payload modelled as rationals). -/
def lat_lon_ok (c : List ℚ) : Prop := 2 ≤ c.length ∧ c.length ≤ 3

instance : DecidablePred lat_lon_ok := fun c => by
  unfold lat_lon_ok; infer_instance

/-- geometry.py `Point`: `type: Literal['Point']` and a single coordinate
tuple. -/
structure Point where
  type : String
  coordinates : List ℚ
deriving DecidableEq, Repr

/-- geometry.py `LineString`: `conlist(lat_lon, min_items=1)`. -/
structure LineString where
  type : String
  coordinates : List (List ℚ)
deriving DecidableEq, Repr

/-- geometry.py `MultiPoint`: `conlist(lat_lon, min_items=1)`. -/
structure MultiPoint where
  type : String
  coordinates : List (List ℚ)
deriving DecidableEq, Repr

/-- geometry.py `MultiLineString`: `conlist(conlist(lat_lon, min_items=1),
min_items=1)`. -/
structure MultiLineString where
  type : String
  coordinates : List (List (List ℚ))
deriving DecidableEq, Repr

/-- geometry.py `Polygon`: `conlist(conlist(lat_lon, min_items=1),
min_items=1)`. -/
structure Polygon where
  type : String
  coordinates : List (List (List ℚ))
deriving DecidableEq, Repr

/-- geometry.py `MultiPolygon`: three nested `conlist` levels, each with
`min_items=1`. -/
structure MultiPolygon where
  type : String
  coordinates : List (List (List (List ℚ)))
deriving DecidableEq, Repr

/-- Construction of `Point`: the `Literal` discriminator must match and the
coordinate tuple must satisfy the leaf `conlist` bounds. -/
def mkPoint (t : String) (cs : List ℚ) : Option Point :=
  if t = "Point" ∧ lat_lon_ok cs then some ⟨t, cs⟩ else none

/-- Construction of `LineString` under the source `conlist` constraints. -/
def mkLineString (t : String) (cs : List (List ℚ)) : Option LineString :=
  if t = "LineString" ∧ 1 ≤ cs.length ∧ ∀ c ∈ cs, lat_lon_ok c then
    some ⟨t, cs⟩
  else none

/-- Construction of `MultiPoint` under the source `conlist` constraints. -/
def mkMultiPoint (t : String) (cs : List (List ℚ)) : Option MultiPoint :=
  if t = "MultiPoint" ∧ 1 ≤ cs.length ∧ ∀ c ∈ cs, lat_lon_ok c then
    some ⟨t, cs⟩
  else none

/-- Construction of `MultiLineString` under the source `conlist`
constraints. -/
def mkMultiLineString (t : String) (cs : List (List (List ℚ))) :
    Option MultiLineString :=
  if t = "MultiLineString" ∧ 1 ≤ cs.length ∧
      ∀ l ∈ cs, 1 ≤ l.length ∧ ∀ c ∈ l, lat_lon_ok c then
    some ⟨t, cs⟩
  else none

/-- Construction of `Polygon` under the source `conlist` constraints. -/
def mkPolygon (t : String) (cs : List (List (List ℚ))) : Option Polygon :=
  if t = "Polygon" ∧ 1 ≤ cs.length ∧
      ∀ l ∈ cs, 1 ≤ l.length ∧ ∀ c ∈ l, lat_lon_ok c then
    some ⟨t, cs⟩
  else none

/-- Construction of `MultiPolygon` under the source `conlist` constraints. -/
def mkMultiPolygon (t : String) (cs : List (List (List (List ℚ)))) :
    Option MultiPolygon :=
  if t = "MultiPolygon" ∧ 1 ≤ cs.length ∧
      ∀ p ∈ cs, 1 ≤ p.length ∧
        ∀ l ∈ p, 1 ≤ l.length ∧ ∀ c ∈ l, lat_lon_ok c then
    some ⟨t, cs⟩
  else none

/-- geometry.py `geometry`: the union of the six variants, in source order. -/
inductive geometry where
  | point : Point → geometry
  | line_string : LineString → geometry
  | polygon : Polygon → geometry
  | multi_line_string : MultiLineString → geometry
  | multi_point : MultiPoint → geometry
  | multi_polygon : MultiPolygon → geometry
deriving DecidableEq, Repr

/-- A guarded construction of the form `if P then some a else none` succeeds
exactly when the guard holds. -/
theorem isSome_ite {α : Type} (P : Prop) [Decidable P] (a : α) :
    ((if P then some a else none).isSome = true) ↔ P := by
  split <;> simp_all

/-- A coordinate tuple satisfies the `conlist(min_items=2, max_items=3)`
bounds exactly when its length is 2 or 3. -/
theorem lat_lon_ok_iff (c : List ℚ) :
    lat_lon_ok c ↔ (c.length = 2 ∨ c.length = 3) := by
  unfold lat_lon_ok; omega

/-- The `min_items=1` bound holds exactly for nonempty lists. -/
theorem one_le_length_iff {α : Type} (l : List α) : 1 ≤ l.length ↔ l ≠ [] := by
  cases l <;> simp

/-- C9: for each geometry variant, construction succeeds exactly when the
type tag equals the variant name, every leaf coordinate tuple has length 2
or 3, and no coordinate array at any nesting level is empty; so a mismatched
tag, a leaf of length 0, 1 or at least 4, or an empty array is rejected. -/
theorem geometry_variant_validation :
    (∀ t cs, (mkPoint t cs).isSome = true ↔
      t = "Point" ∧ (cs.length = 2 ∨ cs.length = 3)) ∧
    (∀ t cs, (mkLineString t cs).isSome = true ↔
      t = "LineString" ∧ cs ≠ [] ∧
        ∀ c ∈ cs, c.length = 2 ∨ c.length = 3) ∧
    (∀ t cs, (mkMultiPoint t cs).isSome = true ↔
      t = "MultiPoint" ∧ cs ≠ [] ∧
        ∀ c ∈ cs, c.length = 2 ∨ c.length = 3) ∧
    (∀ t cs, (mkMultiLineString t cs).isSome = true ↔
      t = "MultiLineString" ∧ cs ≠ [] ∧
        ∀ l ∈ cs, l ≠ [] ∧ ∀ c ∈ l, c.length = 2 ∨ c.length = 3) ∧
    (∀ t cs, (mkPolygon t cs).isSome = true ↔
      t = "Polygon" ∧ cs ≠ [] ∧
        ∀ l ∈ cs, l ≠ [] ∧ ∀ c ∈ l, c.length = 2 ∨ c.length = 3) ∧
    (∀ t cs, (mkMultiPolygon t cs).isSome = true ↔
      t = "MultiPolygon" ∧ cs ≠ [] ∧
        ∀ p ∈ cs, p ≠ [] ∧
          ∀ l ∈ p, l ≠ [] ∧ ∀ c ∈ l, c.length = 2 ∨ c.length = 3) := by
  refine ⟨?_, ?_, ?_, ?_, ?_, ?_⟩ <;>
    intro t cs <;>
    simp [mkPoint, mkLineString, mkMultiPoint, mkMultiLineString, mkPolygon,
      mkMultiPolygon, isSome_ite, lat_lon_ok_iff, one_le_length_iff]

/-- A piece of an object-storage key template: either a literal segment or a
named placeholder. -/
inductive Piece where
  | lit : String → Piece
  | param : String → Piece
deriving DecidableEq, Repr

/-- utils.py `key_patterns`: the S3 key template registry, one entry per
(schema version, role) pair, transcribed template by template. -/
def keyPatterns : Nat → String → Option (List Piece)
  | 2, "results" => some [.lit "tethys/v2/", .param "dataset_id", .lit "/",
      .param "station_id", .lit "/", .param "run_date", .lit "/results.nc.zst"]
  | 2, "datasets" => some [.lit "tethys/v2/datasets.json.zst"]
  | 2, "stations" => some [.lit "tethys/v2/", .param "dataset_id",
      .lit "/stations.json.zst"]
  | 2, "station" => some [.lit "tethys/v2/", .param "dataset_id", .lit "/",
      .param "station_id", .lit "/station.json.zst"]
  | 2, "dataset" => some [.lit "tethys/v2/", .param "dataset_id",
      .lit "/dataset.json.zst"]
  | 2, "results_object_keys" => some [.lit "tethys/v2/", .param "dataset_id",
      .lit "/results_object_keys.json.zst"]
  | 2, "diagnostics" => some [.lit "tethys/v2/diagnostics/", .param "run_id",
      .lit ".json.zst"]
  | 2, "interim_results" => some [.lit "tethys/v2/interim/", .param "run_id",
      .lit "/", .param "dataset_id", .lit "/", .param "version_date",
      .lit "/", .param "station_id", .lit ".", .param "start_date",
      .lit ".nc.zst"]
  | 3, "results" => some [.lit "tethys/v3/", .param "dataset_id", .lit "/",
      .param "station_id", .lit "/", .param "run_date",
      .lit ".results.nc.zst"]
  | 3, "datasets" => some [.lit "tethys/v3.datasets.json.zst"]
  | 3, "stations" => some [.lit "tethys/v3/", .param "dataset_id",
      .lit ".stations.json.zst"]
  | 3, "station" => some [.lit "tethys/v3/", .param "dataset_id", .lit "/",
      .param "station_id", .lit ".station.json.zst"]
  | 3, "dataset" => some [.lit "tethys/v3/", .param "dataset_id",
      .lit ".dataset.json.zst"]
  | 3, "results_object_keys" => some [.lit "tethys/v3/", .param "dataset_id",
      .lit ".results_object_keys.json.zst"]
  | 3, "diagnostics" => some [.lit "tethys/v3/diagnostics/", .param "run_id",
      .lit ".json.zst"]
  | 3, "interim_results" => some [.lit "tethys/v3/interim/", .param "run_id",
      .lit "/", .param "dataset_id", .lit "/", .param "version_date",
      .lit "/", .param "station_id", .lit ".", .param "start_date",
      .lit ".nc.zst"]
  | 4, "results" => some [.lit "tethys/v4/", .param "dataset_id", .lit "/",
      .param "station_id", .lit "/", .param "chunk_id", .lit ".",
      .param "version_date", .lit ".results.nc.zst"]
  | 4, "datasets" => some [.lit "tethys/v4.datasets.json.zst"]
  | 4, "stations" => some [.lit "tethys/v4/", .param "dataset_id",
      .lit ".stations.json.zst"]
  | 4, "station" => some [.lit "tethys/v4/", .param "dataset_id", .lit "/",
      .param "station_id", .lit ".station.json.zst"]
  | 4, "dataset" => some [.lit "tethys/v4/", .param "dataset_id",
      .lit ".dataset.json.zst"]
  | 4, "versions" => some [.lit "tethys/v4/", .param "dataset_id",
      .lit ".versions.json.zst"]
  | 4, "diagnostics" => some [.lit "tethys/v4/diagnostics/", .param "run_id",
      .lit ".json.zst"]
  | 4, "interim_results" => some [.lit "tethys/v4/interim/", .param "run_id",
      .lit "/", .param "dataset_id", .lit "/", .param "station_id", .lit ".",
      .param "start_date", .lit ".nc.zst"]
  | _, _ => none

/-- Errors of the key-rendering operation. -/
inductive RenderError where
  | missingParameter : String → RenderError
  | unknownVersionRole : Nat → String → RenderError
deriving DecidableEq, Repr

/-- Parameter lookup in a rendering parameter assignment. -/
def lookupParam : List (String × String) → String → Option String
  | [], _ => none
  | (k, v) :: rest, n => if k = n then some v else lookupParam rest n

/-- Modelled from the spec: the key rendering operation itself is not in the
repository sources (only the template registry is); per the spec, rendering
substitutes every placeholder of the template and fails with a
`MissingParameter` error when a required placeholder has no value. -/
def renderTemplate : List Piece → List (String × String) →
    Except RenderError String
  | [], _ => .ok ""
  | .lit s :: rest, ps =>
    match renderTemplate rest ps with
    | .ok r => .ok (s ++ r)
    | .error e => .error e
  | .param n :: rest, ps =>
    match lookupParam ps n with
    | none => .error (.missingParameter n)
    | some v =>
      match renderTemplate rest ps with
      | .ok r => .ok (v ++ r)
      | .error e => .error e

/-- Modelled from the spec: render the key for a schema version and role,
failing on an unregistered (version, role) pair. -/
def render (version : Nat) (role : String)
    (params : List (String × String)) : Except RenderError String :=
  match keyPatterns version role with
  | none => .error (.unknownVersionRole version role)
  | some t => renderTemplate t params

/-- If some placeholder of a template has no value in the parameter
assignment, rendering that template fails with a `MissingParameter` error. -/
theorem renderTemplate_missing (t : List Piece) (ps : List (String × String))
    (h : ∃ n, Piece.param n ∈ t ∧ lookupParam ps n = none) :
    ∃ m, renderTemplate t ps = .error (.missingParameter m) := by
  induction t with
  | nil =>
    obtain ⟨n, hn, _⟩ := h
    simp at hn
  | cons p rest ih =>
    obtain ⟨n, hn, hl⟩ := h
    cases p with
    | lit s =>
      have hrest : Piece.param n ∈ rest := by
        rcases List.mem_cons.mp hn with heq | hr
        · exact absurd heq (by simp)
        · exact hr
      obtain ⟨m, hm⟩ := ih ⟨n, hrest, hl⟩
      exact ⟨m, by simp [renderTemplate, hm]⟩
    | param q =>
      rcases hv : lookupParam ps q with _ | v
      · exact ⟨q, by simp [renderTemplate, hv]⟩
      · have hrest : Piece.param n ∈ rest := by
          rcases List.mem_cons.mp hn with heq | hr
          · have : n = q := by injection heq
            rw [this, hv] at hl
            exact absurd hl (by simp)
          · exact hr
        obtain ⟨m, hm⟩ := ih ⟨n, hrest, hl⟩
        exact ⟨m, by simp [renderTemplate, hv, hm]⟩

/-- C2 counterexample: rendering the schema-version-4 `station` template with
dataset_id `abc` and station_id `xyz` yields a key with a slash between the
two identifiers, not the dotted key the claim states. -/
theorem station_key_v4_render_value :
    ∃ s, render 4 "station" [("dataset_id", "abc"), ("station_id", "xyz")] =
        Except.ok s ∧ s ≠ "tethys/v4/abc.xyz.station.json.zst" :=
  ⟨"tethys/v4/abc/xyz.station.json.zst", rfl, by decide⟩

/-- C2 (amended): rendering the schema-version-4 `station` template with
dataset_id `abc` and station_id `xyz` produces exactly
`tethys/v4/abc/xyz.station.json.zst`, and rendering any registered
(version, role) template with a required placeholder missing fails with a
`MissingParameter` error. -/
theorem render_station_v4_and_missing_param :
    (render 4 "station" [("dataset_id", "abc"), ("station_id", "xyz")] =
      Except.ok "tethys/v4/abc/xyz.station.json.zst") ∧
    ∀ (version : Nat) (role : String) (t : List Piece)
      (ps : List (String × String)),
      keyPatterns version role = some t →
      (∃ n, Piece.param n ∈ t ∧ lookupParam ps n = none) →
      ∃ m, render version role ps =
        Except.error (RenderError.missingParameter m) := by
  constructor
  · rfl
  · intro v r t ps hk hmiss
    obtain ⟨m, hm⟩ := renderTemplate_missing t ps hmiss
    exact ⟨m, by simp [render, hk, hm]⟩

/-- C2 witness: rendering version 4, role `station`, with an empty parameter
assignment fails with a `MissingParameter` error. -/
theorem render_station_v4_missing_witness :
    ∃ m, render 4 "station" [] =
      Except.error (RenderError.missingParameter m) :=
  render_station_v4_and_missing_param.2 4 "station"
    [.lit "tethys/v4/", .param "dataset_id", .lit "/", .param "station_id",
      .lit ".station.json.zst"] []
    rfl ⟨"dataset_id", by decide, rfl⟩

/-- C4 counterexample: a `TimeRange` whose `from_date` (t = 100 s) is strictly
after its `to_date` (t = 0 s) is accepted by construction, so construction
does not require `from_date ≤ to_date`. -/
theorem timeRange_accepts_reversed_dates :
    (mkTimeRange ⟨100, 0⟩ ⟨0, 0⟩).isSome = true ∧
      ¬ dtLe ⟨100, 0⟩ ⟨0, 0⟩ := by
  constructor
  · rfl
  · decide

/-- C4 (amended): the source `TimeRange` model declares no ordering
validator, so construction succeeds for every pair of datetimes, including
pairs with `from_date` after `to_date`. -/
theorem timeRange_construction_unconditional (f t : DateTime) :
    mkTimeRange f t = some ⟨f, t⟩ := rfl

/-- C5: a supplied `chunk_day` is accepted by `ChunkID` and by `ResultChunk`
(with otherwise-valid field values) exactly when it lies in the closed
interval [-106751, 106751]; every value outside fails validation. -/
theorem chunk_day_range (d : Int) :
    ((mkChunkID none (some d) none).isSome = true ↔
      (-106751 ≤ d ∧ d ≤ 106751)) ∧
    ((mkResultChunk "c" "k" 1 ⟨0, 0⟩ "h" "ds" "st" none (some d) none).isSome
        = true ↔ (-106751 ≤ d ∧ d ≤ 106751)) := by
  constructor
  · simp [mkChunkID, chunkDayOk, bandOk]
  · simp [mkResultChunk, chunkDayOk, bandOk]

/-- C6 counterexample: `block_length` is declared `confloat(gt=0)`, so the
value 0 is rejected, contradicting the claim that every value ≥ 0 (including
0) is accepted. -/
theorem chunkParams_rejects_zero_block_length :
    mkChunkParams (some 0) none = none := by decide

/-- C6 (amended): a supplied `block_length` is accepted exactly when it is
strictly positive (so 0 and negatives are rejected), and a supplied
`time_interval` is accepted exactly when it is strictly positive. -/
theorem chunkParams_positivity (b : ℚ) (t : Int) :
    ((mkChunkParams (some b) none).isSome = true ↔ 0 < b) ∧
    ((mkChunkParams none (some t)).isSome = true ↔ 0 < t) := by
  constructor
  · simp [mkChunkParams, blockLengthOk, timeIntervalOk]
  · simp [mkChunkParams, blockLengthOk, timeIntervalOk]

/-- C10: constructing `ChunkParams` with both fields omitted succeeds and
yields None for both `block_length` and `time_interval`; the positivity
constraints only apply to supplied values. -/
theorem chunkParams_defaults :
    mkChunkParams none none = some ⟨none, none⟩ := rfl

/-- A JSON scalar value.  The `dt` constructor stands for an ISO-8601
second-precision timestamp string; such strings are in bijection with the
integer second count they denote, which is what the constructor carries. -/
inductive JVal where
  | null : JVal
  | str : String → JVal
  | int : Int → JVal
  | num : ℚ → JVal
  | bool : Bool → JVal
  | dt : Int → JVal
deriving DecidableEq, Repr

/-- dataset.py `DatasetBase`: the eight identity fields of a dataset, in
source order. -/
@[ext]
structure DatasetBase where
  feature : String
  parameter : String
  method : String
  product_code : String
  owner : String
  aggregation_statistic : String
  frequency_interval : String
  utc_offset : String
deriving DecidableEq, Repr

/-- dataset.py `Dataset`: the full dataset metadata schema.  It inherits the
eight identity fields from `DatasetBase` (the `base` component here) and
adds the descriptive fields, in source order.  Note the source declares
`result_type` as a plain `str` field. -/
structure Dataset where
  base : DatasetBase
  dataset_id : String
  units : String
  license : String
  attribution : String
  result_type : String
  extent : Option geometry
  time_range : Option TimeRange
  spatial_resolution : Option ℚ
  heights : Option (List ℚ)
  cf_standard_name : Option String
  wrf_standard_name : Option String
  precision : ℚ
  description : Option String
  product_description : Option String
  parent_datasets : Option (List String)
  properties : Option (List (String × JVal))
  modified_date : Option DateTime
  system_version : Option Int
  bands : Option (List Int)
  chunk_parameters : Option ChunkParams
deriving DecidableEq, Repr

/-- The `conint(gt=1)` constraint on a supplied `system_version`. -/
def systemVersionOk (o : Option Int) : Bool :=
  match o with
  | none => true
  | some v => decide (1 < v)

/-- The `List[conint(ge=0)]` constraint on a supplied `bands` list. -/
def bandsListOk (o : Option (List Int)) : Bool :=
  match o with
  | none => true
  | some l => l.all (fun b => decide (0 ≤ b))

/-- Construction of `Dataset` under pydantic validation.  The constrained
fields are `system_version: conint(gt=1)` and `bands: List[conint(ge=0)]`;
every other scalar field, in particular `result_type`, is an unconstrained
`str`/`float` and is accepted as supplied. -/
def mkDataset (base : DatasetBase)
    (dataset_id units license attribution result_type : String)
    (extent : Option geometry) (time_range : Option TimeRange)
    (spatial_resolution : Option ℚ) (heights : Option (List ℚ))
    (cf_standard_name wrf_standard_name : Option String) (precision : ℚ)
    (description product_description : Option String)
    (parent_datasets : Option (List String))
    (properties : Option (List (String × JVal)))
    (modified_date : Option DateTime) (system_version : Option Int)
    (bands : Option (List Int)) (chunk_parameters : Option ChunkParams) :
    Option Dataset :=
  if systemVersionOk system_version && bandsListOk bands then
    some ⟨base, dataset_id, units, license, attribution, result_type, extent,
      time_range, spatial_resolution, heights, cf_standard_name,
      wrf_standard_name, precision, description, product_description,
      parent_datasets, properties, modified_date, system_version, bands,
      chunk_parameters⟩
  else none

/-- A string is free of the identity-hash delimiter character. -/
abbrev delimFree (s : String) : Prop := '|' ∉ s.data

/-- All eight identity fields of a `DatasetBase` are delimiter-free (the
spec rejects field values containing the delimiter at validation time). -/
def BaseDelimFree (b : DatasetBase) : Prop :=
  delimFree b.feature ∧ delimFree b.parameter ∧ delimFree b.method ∧
    delimFree b.product_code ∧ delimFree b.owner ∧
    delimFree b.aggregation_statistic ∧ delimFree b.frequency_interval ∧
    delimFree b.utc_offset

instance (b : DatasetBase) : Decidable (BaseDelimFree b) := by
  unfold BaseDelimFree; infer_instance

/-- Modelled from the spec: the dataset-id derivation is not in the
repository sources (the module docstring of dataset.py only states that the
first eight fields are hashed).  Per the spec, the hash input is the ordered
concatenation of exactly the eight identity fields, each separated by a
delimiter that is not permitted to appear inside field values. -/
def hashInput (b : DatasetBase) : String :=
  b.feature ++ "|" ++ (b.parameter ++ "|" ++ (b.method ++ "|" ++
    (b.product_code ++ "|" ++ (b.owner ++ "|" ++
      (b.aggregation_statistic ++ "|" ++
        (b.frequency_interval ++ "|" ++ b.utc_offset))))))

/-- Modelled from the spec: `dataset_id` is the digest of the hash input;
the digest function (a truncated cryptographic hash in the source's
docstring) is abstracted as a parameter. -/
def datasetId (digest : String → String) (d : Dataset) : String :=
  digest (hashInput d.base)

/-- Strings with equal character data are equal. -/
theorem stringExt (a b : String) (h : a.data = b.data) : a = b :=
  congrArg String.mk h

/-- Splitting a character list at a delimiter that occurs in neither prefix
is unambiguous. -/
theorem delim_split_list :
    ∀ (x1 x2 r1 r2 : List Char), '|' ∉ x1 → '|' ∉ x2 →
      x1 ++ '|' :: r1 = x2 ++ '|' :: r2 → x1 = x2 ∧ r1 = r2 := by
  intro x1
  induction x1 with
  | nil =>
    intro x2 r1 r2 h1 h2 he
    cases x2 with
    | nil =>
      simp only [List.nil_append] at he
      injection he with _ ht
      exact ⟨rfl, ht⟩
    | cons c t =>
      simp only [List.nil_append, List.cons_append] at he
      injection he with hc _
      rw [← hc] at h2
      exact absurd (List.mem_cons_self _ _) h2
  | cons c t ih =>
    intro x2 r1 r2 h1 h2 he
    cases x2 with
    | nil =>
      simp only [List.cons_append, List.nil_append] at he
      injection he with hc _
      rw [hc] at h1
      exact absurd (List.mem_cons_self _ _) h1
    | cons c2 t2 =>
      simp only [List.cons_append] at he
      injection he with hc ht
      have h1t : '|' ∉ t := fun hm => h1 (List.mem_cons_of_mem _ hm)
      have h2t : '|' ∉ t2 := fun hm => h2 (List.mem_cons_of_mem _ hm)
      obtain ⟨hx, hr⟩ := ih t2 r1 r2 h1t h2t ht
      exact ⟨by rw [hc, hx], hr⟩

/-- The delimiter-separated hash input determines the eight identity fields:
two delimiter-free `DatasetBase` records with equal hash input are equal. -/
theorem hashInput_inj (b1 b2 : DatasetBase)
    (hf1 : BaseDelimFree b1) (hf2 : BaseDelimFree b2)
    (he : hashInput b1 = hashInput b2) : b1 = b2 := by
  obtain ⟨d1f, d1p, d1m, d1pc, d1o, d1a, d1fi, _⟩ := hf1
  obtain ⟨d2f, d2p, d2m, d2pc, d2o, d2a, d2fi, _⟩ := hf2
  have hbar : ("|").data = ['|'] := rfl
  have hd := congrArg String.data he
  simp only [hashInput, String.data_append, hbar, List.append_assoc,
    List.singleton_append] at hd
  obtain ⟨e1, hd⟩ := delim_split_list _ _ _ _ d1f d2f hd
  obtain ⟨e2, hd⟩ := delim_split_list _ _ _ _ d1p d2p hd
  obtain ⟨e3, hd⟩ := delim_split_list _ _ _ _ d1m d2m hd
  obtain ⟨e4, hd⟩ := delim_split_list _ _ _ _ d1pc d2pc hd
  obtain ⟨e5, hd⟩ := delim_split_list _ _ _ _ d1o d2o hd
  obtain ⟨e6, hd⟩ := delim_split_list _ _ _ _ d1a d2a hd
  obtain ⟨e7, e8⟩ := delim_split_list _ _ _ _ d1fi d2fi hd
  exact DatasetBase.ext (stringExt _ _ e1) (stringExt _ _ e2)
    (stringExt _ _ e3) (stringExt _ _ e4) (stringExt _ _ e5)
    (stringExt _ _ e6) (stringExt _ _ e7) (stringExt _ _ e8)

/-- C1: with an injective digest and delimiter-free field values, two
`Dataset` records receive the same derived `dataset_id` exactly when their
eight identity fields coincide — so changing any identity field changes the
id, and changing any field outside the eight leaves it unchanged. -/
theorem datasetId_exactly_identity_fields
    (digest : String → String) (hinj : Function.Injective digest)
    (d1 d2 : Dataset)
    (hf1 : BaseDelimFree d1.base) (hf2 : BaseDelimFree d2.base) :
    datasetId digest d1 = datasetId digest d2 ↔ d1.base = d2.base := by
  constructor
  · intro h
    exact hashInput_inj _ _ hf1 hf2 (hinj h)
  · intro h
    unfold datasetId
    rw [h]

/-- A concrete dataset used as a witness input. -/
def dsA : Dataset :=
  ⟨⟨"waterway", "streamflow", "sensor_recording", "raw_data", "niwa",
      "mean", "1H", "0H"⟩,
    "b21d395e26f1c2ea6e9b2cd7", "m3/s", "CC-BY 4.0", "attribution text",
    "time_series", none, none, none, none, none, none, 1,
    some "first description", none, none, none, none, none, none, none⟩

/-- The same dataset with a different description and different units. -/
def dsB : Dataset :=
  ⟨⟨"waterway", "streamflow", "sensor_recording", "raw_data", "niwa",
      "mean", "1H", "0H"⟩,
    "b21d395e26f1c2ea6e9b2cd7", "l/s", "CC-BY 4.0", "attribution text",
    "time_series", none, none, none, none, none, none, 1,
    some "second description", none, none, none, none, none, none, none⟩

/-- C1 witness: for two concrete datasets that differ only in description
and units, the derived ids coincide (instantiating the digest with the
identity function, which is injective). -/
theorem datasetId_identity_fields_witness :
    datasetId (fun s => s) dsA = datasetId (fun s => s) dsB ∧
      dsA.description ≠ dsB.description ∧ dsA.units ≠ dsB.units :=
  ⟨(datasetId_exactly_identity_fields (fun s => s) (fun _ _ h => h) dsA dsB
      (by decide) (by decide)).mpr rfl,
    by decide, by decide⟩

/-- dataset.py `ResultType`: the closed enumeration of result structures
(defined in the source, though the `Dataset.result_type` field itself is
declared as a plain `str`). -/
inductive ResultType where
  | time_series | grid | trajectory
  | time_series_bands | grid_bands | trajectory_bands
deriving DecidableEq, Repr

/-- The string value of each `ResultType` member. -/
def resultTypeValue : ResultType → String
  | .time_series => "time_series"
  | .grid => "grid"
  | .trajectory => "trajectory"
  | .time_series_bands => "time_series_bands"
  | .grid_bands => "grid_bands"
  | .trajectory_bands => "trajectory_bands"

/-- The member strings of the `ResultType` enumeration. -/
def resultTypeStrings : List String :=
  ["time_series", "grid", "trajectory", "time_series_bands", "grid_bands",
    "trajectory_bands"]

/-- permit.py `Period`. -/
inductive Period where
  | seconds | hours | days | weeks | months | years
deriving DecidableEq, Repr

/-- The string value of each `Period` member. -/
def periodValue : Period → String
  | .seconds => "S"
  | .hours => "H"
  | .days => "D"
  | .weeks => "W"
  | .months => "M"
  | .years => "Y"

/-- pydantic enum validation for `Period`: a member string maps to its
member; any other string is rejected. -/
def parsePeriod (s : String) : Option Period :=
  if s = "S" then some .seconds
  else if s = "H" then some .hours
  else if s = "D" then some .days
  else if s = "W" then some .weeks
  else if s = "M" then some .months
  else if s = "Y" then some .years
  else none

/-- The member strings of the `Period` enumeration. -/
def periodStrings : List String := ["S", "H", "D", "W", "M", "Y"]

/-- permit.py `Units`. -/
inductive Units where
  | liters | cubic_meters
deriving DecidableEq, Repr

/-- pydantic enum validation for `Units`. -/
def parseUnits (s : String) : Option Units :=
  if s = "l" then some .liters
  else if s = "m3" then some .cubic_meters
  else none

/-- The member strings of the `Units` enumeration. -/
def unitsStrings : List String := ["l", "m3"]

/-- permit.py `LimitBoundary`. -/
inductive LimitBoundary where
  | min | max
deriving DecidableEq, Repr

/-- pydantic enum validation for `LimitBoundary`. -/
def parseLimitBoundary (s : String) : Option LimitBoundary :=
  if s = "min" then some .min
  else if s = "max" then some .max
  else none

/-- permit.py `AggregationStat`. -/
inductive AggregationStat where
  | min | max | median | mean
deriving DecidableEq, Repr

/-- pydantic enum validation for `AggregationStat`. -/
def parseAggregationStat (s : String) : Option AggregationStat :=
  if s = "min" then some .min
  else if s = "max" then some .max
  else if s = "median" then some .median
  else if s = "mean" then some .mean
  else none

/-- The member strings of the `AggregationStat` enumeration. -/
def aggregationStatStrings : List String := ["min", "max", "median", "mean"]

/-- permit.py `Limit`: `value: Union[int, float]` (modelled as a rational),
three enum fields, and an optional enum field. -/
structure Limit where
  value : ℚ
  period : Period
  units : Units
  limit_boundary : LimitBoundary
  aggregation_stat : Option AggregationStat
deriving DecidableEq, Repr

/-- Construction of `Limit` under pydantic validation: each enum field is
accepted only if the supplied string is a member value; the optional
`aggregation_stat` may be omitted. -/
def mkLimit (value : ℚ) (period units limit_boundary : String)
    (aggregation_stat : Option String) : Option Limit :=
  match parsePeriod period, parseUnits units,
      parseLimitBoundary limit_boundary with
  | some p, some u, some b =>
    match aggregation_stat with
    | none => some ⟨value, p, u, b, none⟩
    | some s =>
      match parseAggregationStat s with
      | some a => some ⟨value, p, u, b, some a⟩
      | none => none
  | _, _, _ => none

/-- permit.py `ConditionType`. -/
inductive ConditionType where
  | abstraction_limit
deriving DecidableEq, Repr

/-- pydantic enum validation for `ConditionType`. -/
def parseConditionType (s : String) : Option ConditionType :=
  if s = "abstraction limit" then some .abstraction_limit else none

/-- permit.py `Condition`. -/
structure Condition where
  condition_type : ConditionType
  limit : Option (List Limit)
  text : Option String
deriving DecidableEq, Repr

/-- permit.py `ActivityType`. -/
inductive ActivityType where
  | consumptive_take_water | non_consumptive_take_water | divert_water
  | dam_water | use_water | discharge_water
deriving DecidableEq, Repr

/-- pydantic enum validation for `ActivityType`. -/
def parseActivityType (s : String) : Option ActivityType :=
  if s = "consumptive take water" then some .consumptive_take_water
  else if s = "non-consumptive take water" then
    some .non_consumptive_take_water
  else if s = "divert water" then some .divert_water
  else if s = "dam water" then some .dam_water
  else if s = "use water" then some .use_water
  else if s = "discharge water" then some .discharge_water
  else none

/-- The member strings of the `ActivityType` enumeration. -/
def activityTypeStrings : List String :=
  ["consumptive take water", "non-consumptive take water", "divert water",
    "dam water", "use water", "discharge water"]

/-- permit.py `SdMethod`: stream depletion methods. -/
inductive SdMethod where
  | theis_1941 | hunt_1999 | hunt_2003 | hunt_2009 | ward_lough_2011
deriving DecidableEq, Repr

/-- permit.py `AquiferProp`: all fields optional; integer-typed fields are
`Option Int` and float-typed fields are `Option ℚ`. -/
structure AquiferProp where
  method : Option SdMethod
  stream_depletion_ratio : Option ℚ
  n_days : Option Int
  sep_distance : Option Int
  pump_aq_trans : Option Int
  pump_aq_s : Option ℚ
  upper_aq_trans : Option Int
  upper_aq_s : Option ℚ
  lower_aq_trans : Option Int
  lower_aq_s : Option ℚ
  aqt_k : Option ℚ
  aqt_s : Option ℚ
  aqt_thick : Option Int
  stream_k : Option ℚ
  stream_thick : Option Int
  stream_width : Option Int
deriving DecidableEq, Repr

/-- permit.py `Station`: inherits base.py `Station` (station_id, optional
ref/name/osm_id, required geometry, optional altitude) and overrides
`properties` with `AquiferProp`. -/
structure PermitStation where
  station_id : String
  ref : Option String
  name : Option String
  osm_id : Option Int
  geom : geometry
  altitude : Option ℚ
  properties : AquiferProp
deriving DecidableEq, Repr

/-- permit.py `Feature`. -/
inductive Feature where
  | surface_water | groundwater
deriving DecidableEq, Repr

/-- pydantic enum validation for `Feature`. -/
def parseFeature (s : String) : Option Feature :=
  if s = "surface water" then some .surface_water
  else if s = "groundwater" then some .groundwater
  else none

/-- permit.py `Activity`. -/
structure Activity where
  activity_type : ActivityType
  feature : Feature
  primary_purpose : Option String
  station : List PermitStation
  condition : List Condition
deriving DecidableEq, Repr

/-- Construction of `Activity` under pydantic validation of its two enum
fields. -/
def mkActivity (activity_type feature : String)
    (primary_purpose : Option String) (station : List PermitStation)
    (condition : List Condition) : Option Activity :=
  match parseActivityType activity_type, parseFeature feature with
  | some a, some f => some ⟨a, f, primary_purpose, station, condition⟩
  | _, _ => none

/-- permit.py `Status`. -/
inductive Status where
  | expired | surrendered | active | archived | lapsed | superseded
  | cancelled | expired_124
deriving DecidableEq, Repr

/-- pydantic enum validation for `Status`. -/
def parseStatus (s : String) : Option Status :=
  if s = "Expired" then some .expired
  else if s = "Surrendered" then some .surrendered
  else if s = "Active" then some .active
  else if s = "Archived" then some .archived
  else if s = "Lapsed" then some .lapsed
  else if s = "Superseded" then some .superseded
  else if s = "Cancelled" then some .cancelled
  else if s = "Expired - S.124 Protection" then some .expired_124
  else none

/-- The member strings of the `Status` enumeration. -/
def statusStrings : List String :=
  ["Expired", "Surrendered", "Active", "Archived", "Lapsed", "Superseded",
    "Cancelled", "Expired - S.124 Protection"]

/-- permit.py `PermitType`. -/
inductive PermitType where
  | water_permit
deriving DecidableEq, Repr

/-- pydantic enum validation for `PermitType`. -/
def parsePermitType (s : String) : Option PermitType :=
  if s = "water permit" then some .water_permit else none

/-- permit.py `Permit`.  Python `date` values are modelled as integer day
counts. -/
structure Permit where
  permit_id : String
  status : Status
  status_changed_date : Option Int
  commencement_date : Int
  expiry_date : Int
  effective_end_date : Option Int
  exercised : Bool
  permitting_authority : String
  permit_type : PermitType
  activity : Activity
  modified_date : DateTime
deriving DecidableEq, Repr

/-- Construction of `Permit` under pydantic validation of its enum
fields. -/
def mkPermit (permit_id status : String) (status_changed_date : Option Int)
    (commencement_date expiry_date : Int)
    (effective_end_date : Option Int) (exercised : Bool)
    (permitting_authority permit_type : String) (activity : Activity)
    (modified_date : DateTime) : Option Permit :=
  match parseStatus status, parsePermitType permit_type with
  | some st, some pt =>
    some ⟨permit_id, st, status_changed_date, commencement_date,
      expiry_date, effective_end_date, exercised, permitting_authority, pt,
      activity, modified_date⟩
  | _, _ => none

/-- The `parsePeriod` validator succeeds exactly on member strings. -/
theorem parsePeriod_isSome (s : String) :
    (parsePeriod s).isSome = true ↔ s ∈ periodStrings := by
  unfold parsePeriod periodStrings
  split_ifs <;> simp_all

/-- The `parseUnits` validator succeeds exactly on member strings. -/
theorem parseUnits_isSome (s : String) :
    (parseUnits s).isSome = true ↔ s ∈ unitsStrings := by
  unfold parseUnits unitsStrings
  split_ifs <;> simp_all

/-- The `parseAggregationStat` validator succeeds exactly on member
strings. -/
theorem parseAggregationStat_isSome (s : String) :
    (parseAggregationStat s).isSome = true ↔ s ∈ aggregationStatStrings := by
  unfold parseAggregationStat aggregationStatStrings
  split_ifs <;> simp_all

/-- The `parseStatus` validator succeeds exactly on member strings. -/
theorem parseStatus_isSome (s : String) :
    (parseStatus s).isSome = true ↔ s ∈ statusStrings := by
  unfold parseStatus statusStrings
  split_ifs <;> simp_all

/-- The `parseActivityType` validator succeeds exactly on member strings. -/
theorem parseActivityType_isSome (s : String) :
    (parseActivityType s).isSome = true ↔ s ∈ activityTypeStrings := by
  unfold parseActivityType activityTypeStrings
  split_ifs <;> simp_all

/-- A concrete activity used in the enum-validation theorems. -/
def sampleActivity : Activity :=
  ⟨.consumptive_take_water, .surface_water, none, [], []⟩

/-- Constructing a `Limit` with a varying period string succeeds exactly
when the period parses. -/
theorem mkLimit_period (s : String) :
    (mkLimit 1 s "l" "min" none).isSome = (parsePeriod s).isSome := by
  have hu : parseUnits "l" = some Units.liters := rfl
  have hb : parseLimitBoundary "min" = some LimitBoundary.min := rfl
  cases hp : parsePeriod s <;> simp [mkLimit, hp, hu, hb]

/-- Constructing a `Limit` with a varying units string succeeds exactly
when the units parse. -/
theorem mkLimit_units (s : String) :
    (mkLimit 1 "S" s "min" none).isSome = (parseUnits s).isSome := by
  have hp : parsePeriod "S" = some Period.seconds := rfl
  have hb : parseLimitBoundary "min" = some LimitBoundary.min := rfl
  cases hu : parseUnits s <;> simp [mkLimit, hp, hu, hb]

/-- Constructing a `Limit` with a varying supplied aggregation_stat string
succeeds exactly when the statistic parses. -/
theorem mkLimit_aggregation_stat (s : String) :
    (mkLimit 1 "S" "l" "min" (some s)).isSome =
      (parseAggregationStat s).isSome := by
  have hp : parsePeriod "S" = some Period.seconds := rfl
  have hu : parseUnits "l" = some Units.liters := rfl
  have hb : parseLimitBoundary "min" = some LimitBoundary.min := rfl
  cases ha : parseAggregationStat s <;> simp [mkLimit, hp, hu, hb, ha]

/-- Constructing a `Permit` with a varying status string succeeds exactly
when the status parses. -/
theorem mkPermit_status (s : String) :
    (mkPermit "p1" s none 0 100 none true "authority" "water permit"
        sampleActivity ⟨0, 0⟩).isSome = (parseStatus s).isSome := by
  have ht : parsePermitType "water permit" = some PermitType.water_permit :=
    rfl
  cases hs : parseStatus s <;> simp [mkPermit, hs, ht]

/-- Constructing an `Activity` with a varying activity_type string succeeds
exactly when the activity type parses. -/
theorem mkActivity_activity_type (s : String) :
    (mkActivity s "surface water" none [] []).isSome =
      (parseActivityType s).isSome := by
  have hf : parseFeature "surface water" = some Feature.surface_water := rfl
  cases ha : parseActivityType s <;> simp [mkActivity, ha, hf]

/-- C7 counterexample: `Dataset.result_type` is declared as a plain `str`,
so a dataset constructed with the non-member string `bogus` as its
result_type is accepted, contradicting the claim that non-member strings
are rejected for that field. -/
theorem dataset_accepts_unknown_result_type :
    "bogus" ∉ resultTypeStrings ∧
      (mkDataset dsA.base "did" "u" "lic" "att" "bogus" none none none none
        none none 1 none none none none none none none none).isSome =
        true := by
  constructor
  · decide
  · decide

/-- C7 (amended): the enum-typed fields of the permit records (a Permit's
status, an Activity's activity_type, a Limit's aggregation_stat, units and
period) accept exactly the member strings of their closed enumerations —
non-members are rejected, never coerced — while `Dataset.result_type` is a
plain string field that accepts every string, member or not. -/
theorem closed_enum_fields_validation :
    (∀ s, (mkLimit 1 s "l" "min" none).isSome = true ↔ s ∈ periodStrings) ∧
    (∀ s, (mkLimit 1 "S" s "min" none).isSome = true ↔ s ∈ unitsStrings) ∧
    (∀ s, (mkLimit 1 "S" "l" "min" (some s)).isSome = true ↔
      s ∈ aggregationStatStrings) ∧
    (∀ s, (mkPermit "p1" s none 0 100 none true "authority" "water permit"
      sampleActivity ⟨0, 0⟩).isSome = true ↔ s ∈ statusStrings) ∧
    (∀ s, (mkActivity s "surface water" none [] []).isSome = true ↔
      s ∈ activityTypeStrings) ∧
    (∀ s, (mkDataset dsA.base "did" "u" "lic" "att" s none none none none
      none none 1 none none none none none none none none).isSome =
      true) := by
  refine ⟨?_, ?_, ?_, ?_, ?_, ?_⟩
  · intro s; rw [mkLimit_period]; exact parsePeriod_isSome s
  · intro s; rw [mkLimit_units]; exact parseUnits_isSome s
  · intro s; rw [mkLimit_aggregation_stat]; exact parseAggregationStat_isSome s
  · intro s; rw [mkPermit_status]; exact parseStatus_isSome s
  · intro s; rw [mkActivity_activity_type]; exact parseActivityType_isSome s
  · intro s; simp [mkDataset, systemVersionOk, bandsListOk]

/-- A concrete dataset with result_type `trajectory`, owning the chunks in
the C3 theorems. -/
def dsTraj : Dataset :=
  ⟨⟨"atmosphere", "temperature", "simulation", "raw_data", "nasa", "mean",
      "1H", "0H"⟩,
    "0123456789abcdef01234567", "K", "CC-BY 4.0", "attribution text",
    "trajectory", none, none, none, none, none, none, 1, none, none, none,
    none, none, none, none, none⟩

/-- C3 counterexample: the owning dataset has result_type `trajectory`, yet
a `ResultChunk` supplying a height field passes validation, because the
`ResultChunk` model carries no cross-field check against the dataset's
result_type. -/
theorem resultChunk_height_accepted_for_trajectory :
    dsTraj.result_type = "trajectory" ∧
      (mkResultChunk "chunk1" "key1" 5 ⟨0, 0⟩ "hash1" dsTraj.dataset_id
        "st1" (some 100) none none).isSome = true := by
  constructor
  · rfl
  · decide

/-- C3 (amended): for a dataset whose result_type is `trajectory`,
constructing a `ResultChunk` succeeds both with a height field supplied and
with only the required fields (height, chunk_day and band all absent):
the model validates only its own numeric constraints and performs no
dimensional-consistency check. -/
theorem resultChunk_trajectory_both_constructions_succeed :
    (mkResultChunk "chunk1" "key1" 5 ⟨0, 0⟩ "hash1" dsTraj.dataset_id "st1"
      (some 100) none none).isSome = true ∧
    (mkResultChunk "chunk1" "key1" 5 ⟨0, 0⟩ "hash1" dsTraj.dataset_id "st1"
      none none none).isSome = true := by
  constructor
  · decide
  · decide

/-- Field lookup in a serialized JSON object, modelled as an association
list. -/
def lookupJ : List (String × JVal) → String → Option JVal
  | [], _ => none
  | (k, v) :: rest, n => if k = n then some v else lookupJ rest n

/-- Serialize an optional integer field: an absent optional field is
omitted entirely (not emitted as null). -/
def optIntField (n : String) (o : Option Int) : List (String × JVal) :=
  match o with
  | none => []
  | some i => [(n, .int i)]

/-- Serialization of `ResultChunk` to its JSON object.

Modelled from the spec: the serialization entry point itself (how callers
invoke pydantic's `.json()`) is not in the repository sources; per the spec,
absent optional fields are omitted entirely.  The datetime handling comes
from src/utils.py: `orjson_dumps` passes `OPT_OMIT_MICROSECONDS`, so
`version_date` is emitted as an ISO-8601 timestamp with the sub-second
component dropped (the `JVal.dt` constructor carries the whole-second
count that such a string denotes). -/
def serializeResultChunk (c : ResultChunk) : List (String × JVal) :=
  [("chunk_id", .str c.chunk_id), ("key", .str c.key),
    ("content_length", .int c.content_length),
    ("version_date", .dt c.version_date.sec),
    ("chunk_hash", .str c.chunk_hash), ("dataset_id", .str c.dataset_id),
    ("station_id", .str c.station_id)] ++
  optIntField "height" c.height ++ optIntField "chunk_day" c.chunk_day ++
  optIntField "band" c.band

/-- Read a required string field. -/
def getStr (j : List (String × JVal)) (n : String) : Option String :=
  match lookupJ j n with
  | some (.str s) => some s
  | _ => none

/-- Read a required integer field. -/
def getInt (j : List (String × JVal)) (n : String) : Option Int :=
  match lookupJ j n with
  | some (.int i) => some i
  | _ => none

/-- Read a required numeric field. -/
def getNum (j : List (String × JVal)) (n : String) : Option ℚ :=
  match lookupJ j n with
  | some (.num q) => some q
  | _ => none

/-- Read a required datetime field: an ISO-8601 second-precision timestamp
string parses to a datetime with a zero microsecond component. -/
def getDt (j : List (String × JVal)) (n : String) : Option DateTime :=
  match lookupJ j n with
  | some (.dt s) => some ⟨s, 0⟩
  | _ => none

/-- Read an optional integer field: a missing key deserializes to None. -/
def getOptInt (j : List (String × JVal)) (n : String) : Option (Option Int) :=
  match lookupJ j n with
  | none => some none
  | some (.int i) => some (some i)
  | _ => none

/-- Read an optional string field: a missing key deserializes to None. -/
def getOptStr (j : List (String × JVal)) (n : String) :
    Option (Option String) :=
  match lookupJ j n with
  | none => some none
  | some (.str s) => some (some s)
  | _ => none

/-- Deserialization of a `ResultChunk` JSON object: each field is read by
key (so missing optional keys are tolerated) and the model's validation
constraints are re-applied on construction. -/
def deserializeResultChunk (j : List (String × JVal)) : Option ResultChunk :=
  match getStr j "chunk_id", getStr j "key", getInt j "content_length",
      getDt j "version_date", getStr j "chunk_hash", getStr j "dataset_id",
      getStr j "station_id", getOptInt j "height", getOptInt j "chunk_day",
      getOptInt j "band" with
  | some cid, some k, some cl, some vd, some ch, some did, some sid,
      some h, some cd, some b =>
    if decide (0 < cl) && chunkDayOk cd && bandOk b then
      some ⟨cid, k, cl, vd, ch, did, sid, h, cd, b⟩
    else none
  | _, _, _, _, _, _, _, _, _, _ => none

/-- The string value of each `Units` member. -/
def unitsValue : Units → String
  | .liters => "l"
  | .cubic_meters => "m3"

/-- The string value of each `LimitBoundary` member. -/
def limitBoundaryValue : LimitBoundary → String
  | .min => "min"
  | .max => "max"

/-- The string value of each `AggregationStat` member. -/
def aggregationStatValue : AggregationStat → String
  | .min => "min"
  | .max => "max"
  | .median => "median"
  | .mean => "mean"

/-- Serialization of `Limit` to its JSON object: enum members are emitted
as their string values (orjson serializes `str`-subclass enums as strings),
and the absent optional field is omitted. -/
def serializeLimit (l : Limit) : List (String × JVal) :=
  [("value", .num l.value), ("period", .str (periodValue l.period)),
    ("units", .str (unitsValue l.units)),
    ("limit_boundary", .str (limitBoundaryValue l.limit_boundary))] ++
  (match l.aggregation_stat with
    | none => []
    | some a => [("aggregation_stat", .str (aggregationStatValue a))])

/-- Deserialization of a `Limit` JSON object, re-applying the enum
validation. -/
def deserializeLimit (j : List (String × JVal)) : Option Limit :=
  match getNum j "value", (getStr j "period").bind parsePeriod,
      (getStr j "units").bind parseUnits,
      (getStr j "limit_boundary").bind parseLimitBoundary,
      getOptStr j "aggregation_stat" with
  | some v, some p, some u, some b, some ao =>
    match ao with
    | none => some ⟨v, p, u, b, none⟩
    | some s =>
      match parseAggregationStat s with
      | some a => some ⟨v, p, u, b, some a⟩
      | none => none
  | _, _, _, _, _ => none

/-- A `ResultChunk` value satisfying the model's own validation
constraints. -/
def ValidResultChunk (c : ResultChunk) : Prop :=
  0 < c.content_length ∧ chunkDayOk c.chunk_day = true ∧ bandOk c.band = true

instance (c : ResultChunk) : Decidable (ValidResultChunk c) := by
  unfold ValidResultChunk; infer_instance

/-- Enum round trip: parsing a member's string value returns the member. -/
theorem parsePeriod_value (p : Period) :
    parsePeriod (periodValue p) = some p := by cases p <;> rfl

/-- Enum round trip for `Units`. -/
theorem parseUnits_value (u : Units) :
    parseUnits (unitsValue u) = some u := by cases u <;> rfl

/-- Enum round trip for `LimitBoundary`. -/
theorem parseLimitBoundary_value (b : LimitBoundary) :
    parseLimitBoundary (limitBoundaryValue b) = some b := by
  cases b <;> rfl

/-- Enum round trip for `AggregationStat`. -/
theorem parseAggregationStat_value (a : AggregationStat) :
    parseAggregationStat (aggregationStatValue a) = some a := by
  cases a <;> rfl

/-- A concrete chunk whose `version_date` carries a 500000 microsecond
component. -/
def chunkMicro : ResultChunk :=
  ⟨"chunk1", "key1", 5, ⟨1577836800, 500000⟩, "hash1",
    "0123456789abcdef01234567", "st1", none, none, none⟩

/-- A concrete valid chunk with a whole-second `version_date`. -/
def chunkWhole : ResultChunk :=
  ⟨"chunk1", "key1", 5, ⟨1577836800, 0⟩, "hash1",
    "0123456789abcdef01234567", "st1", some 100, some 18262, some 0⟩

end Tethys
